import Mathlib

/-!
Verification of the yt-dlp-ios download script (src/main.py).

The script is a thin CLI wrapper: it parses one URL argument, resolves the
user's `~/Documents` directory (creating it if needed), builds a yt-dlp
options record, calls `ydl.download([url])` once, and then locates the
downloaded file (preferring the library's predicted filename, falling back
to a directory scan for known video extensions).

The embedding below models the external world (filesystem, yt-dlp library)
as explicit environment records, and the script's functions as pure Lean
functions over those records.  Python string operations are modelled on the
underlying character lists so that concrete instances evaluate by `decide`.
Case folding is ASCII (the extensions compared against are all ASCII).
-/

/-- Model of Python `str.lower()` (ASCII case folding). -/
def strLower (s : String) : String :=
  ⟨s.data.map Char.toLower⟩

/-- Model of Python `str.endswith(suffix)`: the second string is a suffix of
the first. -/
def strEndsWith (s suffix : String) : Bool :=
  List.isSuffixOf suffix.data s.data

/-- Auxiliary for `joinPath`: whether a path string starts with `/`. -/
def strStartsWithSlash (s : String) : Bool :=
  match s.data with
  | [] => false
  | c :: _ => c == '/'

/-- Model of POSIX `os.path.join(dir, name)` for one component: an absolute
second component replaces the first; otherwise the two are joined, inserting
a `/` separator unless `dir` already ends with one or is empty. -/
def joinPath (dir name : String) : String :=
  if strStartsWithSlash name then name
  else if strEndsWith dir "/" || dir = "" then dir ++ name
  else dir ++ "/" ++ name

/-- Observable events of one script run: the usage message printed by the
`__main__` guard, the `get_documents_folder` call (which resolves and may
create `~/Documents`), and each `ydl.download([url])` call into the yt-dlp
library. -/
inductive Event where
  | printUsage : Event
  | resolveDocumentsFolder : Event
  | libDownloadCall (url : String) : Event
deriving DecidableEq, Repr

/-- Environment seen by `get_documents_folder`: which directories exist, and
on which paths `os.makedirs` fails with an `OSError` (permissions etc.). -/
structure FS where
  dirExists : String → Bool
  osFailure : String → Bool

/-- Model of `os.makedirs(path, exist_ok)`: returns `true` when the call
raises `OSError`.  An OS-level failure raises always; an already existing
directory raises (`FileExistsError`, a subclass of `OSError`) only when
`exist_ok` is false. -/
def makedirsRaises (fs : FS) (path : String) (exist_ok : Bool) : Bool :=
  fs.osFailure path || (fs.dirExists path && !exist_ok)

/-- Embedding of `get_documents_folder` (src/main.py lines 14-30): joins the
home directory with `Documents`, calls `os.makedirs(..., exist_ok=True)`,
and returns `None` exactly when that call raises `OSError`. -/
def get_documents_folder (fs : FS) (home : String) : Option String :=
  let documents_folder := joinPath home "Documents"
  if makedirsRaises fs documents_folder true then none
  else some documents_folder

/-- Environment seen by `download_video_with_library`: whether the
`yt_dlp` import succeeded, whether `extract_info`/`prepare_filename` did and
what path it predicted, the status code returned by `ydl.download`, the
entries of the output directory (`os.listdir`), and which paths exist on
disk (`os.path.exists`). -/
structure Env where
  ytDlpAvailable : Bool
  infoSucceeds : Bool
  preparedFilename : String
  errorCode : Int
  listdir : List String
  pathExists : String → Bool

/-- The six extensions recognised by the directory-scan fallback
(src/main.py line 105). -/
def videoExts : List String :=
  [".mp4", ".mkv", ".webm", ".mov", ".avi", ".flv"]

/-- Embedding of the scan filter (src/main.py lines 101-107): a directory
entry counts as a video file when its lower-cased name ends with one of the
six recognised extensions. -/
def isVideoFile (f : String) : Bool :=
  videoExts.any (fun ext => strEndsWith (strLower f) ext)

/-- Embedding of lines 68-77: the anticipated file path is the library's
`prepare_filename` prediction when info extraction succeeds, and the generic
`output_dir/downloaded_video` fallback otherwise. -/
def expectedPath (env : Env) (output_dir : String) : String :=
  if env.infoSucceeds then env.preparedFilename
  else joinPath output_dir "downloaded_video"

/-- Embedding of the directory-scan fallback (lines 100-138): filter the
directory listing for recognised video files; none found means failure, and
otherwise the first match is used (the sole match when there is exactly
one). -/
def scanCandidate (env : Env) (output_dir : String) : Option String :=
  match env.listdir.filter isVideoFile with
  | [] => none
  | f :: _ => some (joinPath output_dir f)

/-- Embedding of lines 94-138: trust the anticipated path when it exists on
disk, otherwise fall back to the directory scan. -/
def candidatePath (env : Env) (output_dir : String) : Option String :=
  if env.pathExists (expectedPath env output_dir) then
    some (expectedPath env output_dir)
  else scanCandidate env output_dir

/-- Embedding of the final check (lines 140-147):
`if downloaded_filepath and os.path.exists(downloaded_filepath)` — a
non-empty candidate that exists on disk is returned, anything else yields
`None`.  Python string truthiness makes the empty string fail this check. -/
def finalizePath (env : Env) (c : Option String) : Option String :=
  match c with
  | none => none
  | some p => if p = "" then none else if env.pathExists p then some p else none

/-- Embedding of `download_video_with_library` (src/main.py lines 33-160).
Returns the result value together with the list of `ydl.download` calls
made.  When the library is unavailable the function returns early with no
call; otherwise `ydl.download([url])` is called exactly once, and a zero
status code leads to the file-location logic, while a non-zero one returns
`None`. -/
def download_video_with_library (env : Env) (url output_dir : String) :
    Option String × List Event :=
  if env.ytDlpAvailable then
    if env.errorCode = 0 then
      (finalizePath env (candidatePath env output_dir),
       [Event.libDownloadCall url])
    else (none, [Event.libDownloadCall url])
  else (none, [])

/-- Embedding of the `__main__` guard and `main()` (src/main.py lines
163-198), returning the process exit code and the event trace.  With fewer
than two entries in `argv` the guard prints usage and exits 1.  With exactly
one URL argument, `main` runs: a missing library or a failed
`get_documents_folder` exits 1; otherwise the download is attempted and the
function returns normally — exit code 0 — whether or not the download
succeeded.  Extra positional arguments make `argparse` error with exit code
2 (option-like arguments are not modelled). -/
def run_program (argv : List String) (fs : FS) (home : String) (env : Env) :
    Nat × List Event :=
  match argv with
  | [] => (1, [Event.printUsage])
  | [_] => (1, [Event.printUsage])
  | [_, url] =>
    if env.ytDlpAvailable then
      match get_documents_folder fs home with
      | none => (1, [Event.resolveDocumentsFolder])
      | some dir =>
        (0, Event.resolveDocumentsFolder ::
              (download_video_with_library env url dir).2)
    else (1, [])
  | _ => (2, [])

example : isVideoFile "Clip.MP4" = true := by decide
example : isVideoFile "notes.txt" = false := by decide
example : isVideoFile "downloaded_video" = false := by decide
example : joinPath "/home" "Documents" = "/home/Documents" := by decide

/-! ## Helper lemmas -/

theorem string_append_right_empty {a b : String} (h : a ++ b = "") : b = "" := by
  have h2 : (a ++ b).data = [] := by rw [h]
  rw [String.data_append] at h2
  exact String.ext (List.append_eq_nil.mp h2).2

theorem joinPath_ne_empty (dir f : String) (hf : f ≠ "") :
    joinPath dir f ≠ "" := by
  unfold joinPath
  split_ifs
  · exact hf
  · intro h
    exact hf (string_append_right_empty h)
  · intro h
    exact hf (string_append_right_empty h)

theorem download_fst (env : Env) (url output_dir : String) :
    (download_video_with_library env url output_dir).1 =
      if env.ytDlpAvailable then
        if env.errorCode = 0 then finalizePath env (candidatePath env output_dir)
        else none
      else none := by
  unfold download_video_with_library
  split_ifs <;> rfl

theorem finalizePath_exists (env : Env) (c : Option String) (p : String)
    (h : finalizePath env c = some p) : env.pathExists p = true := by
  cases c with
  | none => simp [finalizePath] at h
  | some q =>
    simp only [finalizePath] at h
    split_ifs at h with h1 h2
    · injection h with hq
      rw [← hq]
      exact h2

theorem finalizePath_eq_some (env : Env) (c : Option String) (p : String)
    (h : finalizePath env c = some p) : c = some p := by
  cases c with
  | none => simp [finalizePath] at h
  | some q =>
    simp only [finalizePath] at h
    split_ifs at h
    · exact h

theorem candidatePath_provenance (env : Env) (output_dir p : String)
    (h : candidatePath env output_dir = some p) :
    p = expectedPath env output_dir ∨
      ∃ f, f ∈ env.listdir ∧ p = joinPath output_dir f := by
  unfold candidatePath at h
  split_ifs at h with hex
  · left
    injection h with hq
    exact hq.symm
  · right
    unfold scanCandidate at h
    cases hc : env.listdir.filter isVideoFile with
    | nil => rw [hc] at h; simp at h
    | cons f rest =>
      rw [hc] at h
      injection h with hq
      refine ⟨f, ?_, hq.symm⟩
      exact List.mem_of_mem_filter (hc ▸ List.mem_cons_self f rest)

/-! ## Concrete environments used by witnesses and counterexamples -/

/-- Filesystem on which directory creation always succeeds. -/
def fsOk : FS := ⟨fun _ => false, fun _ => false⟩

/-- Run in which the library is available but `ydl.download` returns status
code 1. -/
def envDownloadFails : Env :=
  ⟨true, true, "/home/user/Documents/v.mp4", 1, [], fun _ => false⟩

/-- Run in which the `yt_dlp` import failed. -/
def envNoLib : Env := ⟨false, true, "", 0, [], fun _ => false⟩

/-- Successful run in which the predicted path exists on disk. -/
def envSuccess : Env :=
  ⟨true, true, "/d/v.mp4", 0, ["v.mp4"], fun s => s == "/d/v.mp4"⟩

/-- Successful run in which info extraction failed, the generic anticipated
path does not exist, and the directory scan finds exactly one video file. -/
def envScanFallback : Env :=
  ⟨true, false, "", 0, ["clip.mp4"], fun s => s == "/d/clip.mp4"⟩

/-- Successful run in which the scan finds no video files and the
anticipated path does not exist either. -/
def envScanEmpty : Env :=
  ⟨true, false, "", 0, ["notes.txt"], fun _ => false⟩

/-- Successful run in which the library predicted an audio file
(`/d/title.m4a`) that exists on disk, while the directory also holds exactly
one recognised video file (`clip.mp4`).  The listing and `pathExists` agree
with each other. -/
def envPredictedExists : Env :=
  ⟨true, true, "/d/title.m4a", 0, ["title.m4a", "clip.mp4"],
   fun s => s == "/d/title.m4a" || s == "/d/clip.mp4"⟩

/-- Successful run in which the predicted audio file exists and the
directory holds no recognised video file at all. -/
def envNoVideosButPredicted : Env :=
  ⟨true, true, "/d/title.m4a", 0, ["title.m4a"], fun s => s == "/d/title.m4a"⟩

/-! ## Claim theorems -/

/-- C1: whenever `download_video_with_library` returns a (single, non-None)
file path after the library reported success (status code 0), that path
exists on disk at return time; a path whose existence is not confirmed is
never returned — the function yields `None` instead. -/
theorem c1_success_path_exists (env : Env) (url output_dir p : String)
    (h0 : env.errorCode = 0)
    (hres : (download_video_with_library env url output_dir).1 = some p) :
    env.pathExists p = true := by
  rw [download_fst] at hres
  split_ifs at hres
  · exact finalizePath_exists env (candidatePath env output_dir) p hres

theorem c1_success_path_exists_witness :
    envSuccess.errorCode = 0 ∧ envSuccess.pathExists "/d/v.mp4" = true :=
  ⟨rfl, c1_success_path_exists envSuccess "u" "/d" "/d/v.mp4" rfl (by decide)⟩

/-- C5: a non-zero status code from the library's download call makes
`download_video_with_library` return `None` (the embedding is a total
function, so no exception escapes). -/
theorem c5_nonzero_none (env : Env) (url output_dir : String)
    (h : env.errorCode ≠ 0) :
    (download_video_with_library env url output_dir).1 = none := by
  rw [download_fst]
  simp [h]

theorem c5_nonzero_none_witness :
    envDownloadFails.errorCode ≠ 0 ∧
      (download_video_with_library envDownloadFails "u" "/d").1 = none :=
  ⟨by decide, c5_nonzero_none envDownloadFails "u" "/d" (by decide)⟩

/-- C9: a directory entry is recognised as a video file if and only if its
lower-cased name ends with one of exactly the six extensions `.mp4`, `.mkv`,
`.webm`, `.mov`, `.avi`, `.flv`; nothing else is ever matched by the scan. -/
theorem c9_video_ext_iff (f : String) :
    isVideoFile f = true ↔
      (strEndsWith (strLower f) ".mp4" = true ∨
       strEndsWith (strLower f) ".mkv" = true ∨
       strEndsWith (strLower f) ".webm" = true ∨
       strEndsWith (strLower f) ".mov" = true ∨
       strEndsWith (strLower f) ".avi" = true ∨
       strEndsWith (strLower f) ".flv" = true) := by
  simp [isVideoFile, videoExts]

/-- C10: every path returned by `download_video_with_library` is either the
anticipated path (the library's prediction, or the generic fallback inside
the output directory) or the output directory joined with one of the
directory's own entries. -/
theorem c10_path_provenance (env : Env) (url output_dir p : String)
    (hres : (download_video_with_library env url output_dir).1 = some p) :
    p = expectedPath env output_dir ∨
      ∃ f, f ∈ env.listdir ∧ p = joinPath output_dir f := by
  rw [download_fst] at hres
  split_ifs at hres
  exact candidatePath_provenance env output_dir p
    (finalizePath_eq_some env (candidatePath env output_dir) p hres)

theorem c10_path_provenance_witness :
    "/d/v.mp4" = expectedPath envSuccess "/d" ∨
      ∃ f, f ∈ envSuccess.listdir ∧ "/d/v.mp4" = joinPath "/d" f :=
  c10_path_provenance envSuccess "u" "/d" "/d/v.mp4" (by decide)

/-- C6: `get_documents_folder` returns the home directory joined with
`Documents`; an already-existing directory is not an error (the call passes
`exist_ok=True` to `os.makedirs`), and `None` is returned exactly when
`os.makedirs` raises an `OSError`. -/
theorem c6_documents_folder (fs : FS) (home : String) :
    (fs.osFailure (joinPath home "Documents") = false →
       get_documents_folder fs home = some (joinPath home "Documents")) ∧
    (fs.osFailure (joinPath home "Documents") = true →
       get_documents_folder fs home = none) ∧
    (fs.dirExists (joinPath home "Documents") = true →
     fs.osFailure (joinPath home "Documents") = false →
       get_documents_folder fs home = some (joinPath home "Documents")) := by
  refine ⟨fun h => ?_, fun h => ?_, fun _ h => ?_⟩ <;>
    simp [get_documents_folder, makedirsRaises, h]

theorem c6_documents_folder_witness :
    get_documents_folder ⟨fun _ => true, fun _ => false⟩ "/home/user" =
      some (joinPath "/home/user" "Documents") :=
  (c6_documents_folder ⟨fun _ => true, fun _ => false⟩ "/home/user").2.2 rfl rfl

/-- C7: run with no argument (only the program name in `argv`), the
process exits with code 1 (non-zero) and its whole observable trace is the
usage message: the Documents directory is not resolved and the download
library is never invoked. -/
theorem c7_no_args_usage (prog : String) (fs : FS) (home : String)
    (env : Env) :
    run_program [prog] fs home env = (1, [Event.printUsage]) := rfl

/-- C2 counterexample: with the library available, a writable filesystem
and a download that fails (status code 1, so
`download_video_with_library` returns `None`), the process still exits
with code 0 — not 1 as the claim states. -/
theorem c2_counterexample :
    (download_video_with_library envDownloadFails "u"
        (joinPath "/home/user" "Documents")).1 = none ∧
    (run_program ["prog", "u"] fsOk "/home/user" envDownloadFails).1 = 0 :=
  ⟨rfl, rfl⟩

/-- C2 (amended): the process exits with code 1 when the URL argument is
missing, when the yt-dlp library is unavailable, or when the Documents
directory cannot be created; once the download is attempted, the process
exits with code 0 whether the download succeeds or fails (a download
failure is only reported as a message). -/
theorem c2_exit_codes (prog url home : String) (fs : FS) (env : Env) :
    (run_program [prog] fs home env).1 = 1 ∧
    (env.ytDlpAvailable = false →
       (run_program [prog, url] fs home env).1 = 1) ∧
    (env.ytDlpAvailable = true → get_documents_folder fs home = none →
       (run_program [prog, url] fs home env).1 = 1) ∧
    (env.ytDlpAvailable = true →
       ∀ d, get_documents_folder fs home = some d →
         (run_program [prog, url] fs home env).1 = 0) := by
  refine ⟨rfl, fun h => ?_, fun h hd => ?_, fun h d hd => ?_⟩
  · simp [run_program, h]
  · simp [run_program, h, hd]
  · simp [run_program, h, hd]

theorem c2_exit_codes_witness :
    (run_program ["prog"] fsOk "/home/user" envDownloadFails).1 = 1 ∧
    (run_program ["prog", "u"] fsOk "/home/user" envDownloadFails).1 = 0 := by
  have h := c2_exit_codes "prog" "u" "/home/user" fsOk envDownloadFails
  exact ⟨h.1, h.2.2.2 rfl (joinPath "/home/user" "Documents") rfl⟩

/-- C3 counterexample: the download succeeds and the output directory
contains exactly one recognised video file (`clip.mp4`), yet the function
returns the library's predicted path `/d/title.m4a` — which exists on disk —
rather than the sole video file.  The scan fallback only runs when the
predicted path does not exist. -/
theorem c3_counterexample :
    envPredictedExists.errorCode = 0 ∧
    envPredictedExists.listdir.filter isVideoFile = ["clip.mp4"] ∧
    (download_video_with_library envPredictedExists "u" "/d").1 =
      some "/d/title.m4a" ∧
    some "/d/title.m4a" ≠ some (joinPath "/d" "clip.mp4") := by
  refine ⟨rfl, by decide, by decide, by decide⟩

/-- C3 (amended): when the download reports success, the library's
anticipated path does not exist on disk, and the output directory contains
exactly one recognised video file, `download_video_with_library` returns
the output directory joined with that file — whatever the predicted
filename was. -/
theorem c3_sole_video_fallback (env : Env) (url output_dir f : String)
    (hlib : env.ytDlpAvailable = true)
    (h0 : env.errorCode = 0)
    (hpred : env.pathExists (expectedPath env output_dir) = false)
    (hscan : env.listdir.filter isVideoFile = [f])
    (hex : env.pathExists (joinPath output_dir f) = true) :
    (download_video_with_library env url output_dir).1 =
      some (joinPath output_dir f) := by
  have hvf : isVideoFile f = true := by
    have hm : f ∈ env.listdir.filter isVideoFile := by
      rw [hscan]
      exact List.mem_singleton_self f
    exact List.of_mem_filter hm
  have hfne : f ≠ "" := by
    intro he
    rw [he] at hvf
    exact absurd hvf (by decide)
  rw [download_fst, if_pos hlib, if_pos h0]
  unfold candidatePath
  rw [if_neg (by simp [hpred])]
  unfold scanCandidate
  rw [hscan]
  simp only [finalizePath]
  rw [if_neg (joinPath_ne_empty output_dir f hfne), if_pos hex]

theorem c3_sole_video_fallback_witness :
    (download_video_with_library envScanFallback "u" "/d").1 =
      some (joinPath "/d" "clip.mp4") :=
  c3_sole_video_fallback envScanFallback "u" "/d" "clip.mp4" rfl rfl
    (by decide) (by decide) (by decide)

/-- C4 counterexample: the download succeeds and the output directory
contains zero recognised video files, yet the function does not report
failure: it returns the predicted path `/d/title.m4a`, which exists on
disk.  The zero-video-files check only runs when the predicted path does
not exist. -/
theorem c4_counterexample :
    envNoVideosButPredicted.errorCode = 0 ∧
    envNoVideosButPredicted.listdir.filter isVideoFile = [] ∧
    (download_video_with_library envNoVideosButPredicted "u" "/d").1 =
      some "/d/title.m4a" := by
  refine ⟨rfl, by decide, by decide⟩

/-- C4 (amended): when the download reports success, the anticipated path
does not exist on disk, and the output directory contains zero recognised
video files, `download_video_with_library` returns `None`. -/
theorem c4_no_videos_none (env : Env) (url output_dir : String)
    (_h0 : env.errorCode = 0)
    (hpred : env.pathExists (expectedPath env output_dir) = false)
    (hscan : env.listdir.filter isVideoFile = []) :
    (download_video_with_library env url output_dir).1 = none := by
  rw [download_fst]
  unfold candidatePath scanCandidate
  rw [hscan]
  simp [hpred, finalizePath]

theorem c4_no_videos_none_witness :
    (download_video_with_library envScanEmpty "u" "/d").1 = none :=
  c4_no_videos_none envScanEmpty "u" "/d" rfl (by decide) (by decide)

/-- C8 counterexample: an invocation in which the `yt_dlp` import failed
makes no call into the download library at all, so the library is not
called exactly once in every invocation. -/
theorem c8_counterexample :
    (download_video_with_library envNoLib "u" "/d").2 = [] := rfl

/-- C8 (amended): `download_video_with_library` never calls the download
library more than once — no failure makes it retry — and it calls the
library exactly once whenever the library is available. -/
theorem c8_single_call (env : Env) (url output_dir : String) :
    (env.ytDlpAvailable = true →
       (download_video_with_library env url output_dir).2 =
         [Event.libDownloadCall url]) ∧
    (download_video_with_library env url output_dir).2.length ≤ 1 := by
  unfold download_video_with_library
  split_ifs <;> simp_all

theorem c8_single_call_witness :
    (download_video_with_library envDownloadFails "u" "/d").2 =
      [Event.libDownloadCall "u"] :=
  (c8_single_call envDownloadFails "u" "/d").1 rfl
